import Mathlib

/-!
Shallow embedding of the `async-tensorrt` wrapper library.

The Rust wrapper mediates between callers and the native TensorRT engine.
Pure wrapper logic (argument marshalling, result mapping, error handling,
drop order) is translated here directly from the Rust source.  The native
`IOptimizationProfile` / `IBuilderConfig` / device-context calls are external
collaborators; their contracts are modelled explicitly as state machines
following the documented behavior restated in the specification, and every
such definition is marked in its doc comment.
-/

namespace AsyncTensorrt

/-- Engine-reported error carrying the native diagnostic message
(`crate::error::Error`; `error.rs` is not among the provided sources, so the
payload is modelled from the spec as the last diagnostic message). -/
inductive Error where
  | engine : String → Error
deriving DecidableEq, Repr

/-- Modelled from the spec: `last_error()` surfaces the native library last
diagnostic message as an engine-reported error. -/
def last_error : Error := Error.engine "TensorRT error"

/-- Device identifier (`async_cuda::device::DeviceId`). -/
abbrev DeviceId := Nat

/-- Defined in `NvInferRuntimeBase.h` (constant `MAX_DIMS` in
`src/ffi/optimization_profile.rs`). -/
def MAX_DIMS : Nat := 8

/-! ## Native optimization-profile model

The wrapper calls `setDimensions` / `getDimensions` / `setShapeValues` /
`getNbShapeValues` / `getShapeValues` / `setExtraMemoryTarget` /
`getExtraMemoryTarget` on the native `IOptimizationProfile`.  The native
object is modelled as explicit state.  Selectors are passed by the wrapper as
the integers `Min = 0`, `Opt = 1`, `Max = 2`
(enum `OptimizationProfileSelector` in `src/ffi/sync/optimization_profile.rs`).
-/

/-- State of a native `IOptimizationProfile`.  Modelled from the spec: per
input name and selector there is an optional stored dimension vector and an
optional stored shape-value vector; the shape-value element count is tracked
per input name only (the native `getNbShapeValues` takes no selector); the
extra-memory target is a fraction. -/
structure NativeProfile where
  dims : String → Int → Option (List Int)
  shapeValues : String → Int → Option (List Int)
  nbShapeValues : String → Int
  extraMemoryTarget : ℚ

/-- A fresh native profile: nothing set; the native count queries report `-1`
for unset entries (spec: getters return absence when never assigned). -/
def emptyProfile : NativeProfile where
  dims := fun _ _ => none
  shapeValues := fun _ _ => none
  nbShapeValues := fun _ => -1
  extraMemoryTarget := 0

/-- Native `Dims` result of `getDimensions` (`nbDims` plus payload). -/
structure Dims where
  nbDims : Int
  d : List Int

/-- Modelled from the spec: native `setDimensions` soft-fails with `false`
when validation detects an inconsistency (here: a dimension count exceeding
`MAX_DIMS`); on success it stores the dimensions for the given input name and
selector and returns `true`. -/
def nativeSetDimensions (p : NativeProfile) (name : String) (select : Int)
    (ds : List Int) : Bool × NativeProfile :=
  if ds.length ≤ MAX_DIMS then
    (true, { p with
      dims := fun n s => if n = name ∧ s = select then some ds else p.dims n s })
  else
    (false, p)

/-- Modelled from the spec: native `getDimensions` returns the stored
dimensions with their count, or `nbDims = -1` when the bound was never
assigned for this input name and selector. -/
def nativeGetDimensions (p : NativeProfile) (name : String) (select : Int) : Dims :=
  match p.dims name select with
  | some ds => { nbDims := (ds.length : Int), d := ds }
  | none => { nbDims := -1, d := [] }

/-- Modelled from the spec: native `setShapeValues` soft-fails with `false`
on an inconsistency (an element count disagreeing with the count already
established for this input name); on success it stores the values for the
given input name and selector, establishes the per-name element count, and
returns `true`. -/
def nativeSetShapeValues (p : NativeProfile) (name : String) (select : Int)
    (vs : List Int) : Bool × NativeProfile :=
  if p.nbShapeValues name = -1 ∨ p.nbShapeValues name = (vs.length : Int) then
    (true, { p with
      shapeValues := fun n s => if n = name ∧ s = select then some vs else p.shapeValues n s
      nbShapeValues := fun n => if n = name then (vs.length : Int) else p.nbShapeValues n })
  else
    (false, p)

/-- Modelled from the spec: native `getNbShapeValues` takes the input name
only (no selector) and returns the established element count, `-1` when no
shape values were ever set for the name. -/
def nativeGetNbShapeValues (p : NativeProfile) (name : String) : Int :=
  p.nbShapeValues name

/-- Modelled from the spec: native `getShapeValues` returns a pointer to the
stored values for the given input name and selector, or a null pointer
(`none`) when that selector was never assigned. -/
def nativeGetShapeValues (p : NativeProfile) (name : String) (select : Int) :
    Option (List Int) :=
  p.shapeValues name select

/-- Modelled from the spec: native `setExtraMemoryTarget` accepts any value
in `[0, 1]`, storing it and returning `true`; any value outside that range is
rejected with `false` and the stored target is unchanged.  The `f32` argument
is embedded as a rational number. -/
def nativeSetExtraMemoryTarget (p : NativeProfile) (target : ℚ) : Bool × NativeProfile :=
  if 0 ≤ target ∧ target ≤ 1 then
    (true, { p with extraMemoryTarget := target })
  else
    (false, p)

/-- Modelled from the spec: native `getExtraMemoryTarget` returns the stored
target. -/
def nativeGetExtraMemoryTarget (p : NativeProfile) : ℚ :=
  p.extraMemoryTarget

/-! ## Synchronous wrapper `OptimizationProfile`
(`src/ffi/sync/optimization_profile.rs`). -/

namespace OptimizationProfile

/-- From `OptimizationProfile::set_dimensions`: the wrapper builds a native
`Dims` with `nbDims = dims.len()` and the given entries and forwards it to
native `setDimensions`, returning the native boolean. -/
def set_dimensions (p : NativeProfile) (input_name : String) (select : Int)
    (dims : List Int) : Bool × NativeProfile :=
  nativeSetDimensions p input_name select dims

/-- From `OptimizationProfile::set_min_dimensions`. -/
def set_min_dimensions (p : NativeProfile) (input_name : String) (dims : List Int) :
    Bool × NativeProfile :=
  set_dimensions p input_name 0 dims

/-- From `OptimizationProfile::set_opt_dimensions`. -/
def set_opt_dimensions (p : NativeProfile) (input_name : String) (dims : List Int) :
    Bool × NativeProfile :=
  set_dimensions p input_name 1 dims

/-- From `OptimizationProfile::set_max_dimensions`. -/
def set_max_dimensions (p : NativeProfile) (input_name : String) (dims : List Int) :
    Bool × NativeProfile :=
  set_dimensions p input_name 2 dims

/-- From `OptimizationProfile::get_dimensions`: the wrapper calls native
`getDimensions`; when `nbDims >= 0` it copies the first `nbDims` entries into
a fresh vector and returns it, otherwise it returns `None`. -/
def get_dimensions (p : NativeProfile) (input_name : String) (select : Int) :
    Option (List Int) :=
  let dims := nativeGetDimensions p input_name select
  if 0 ≤ dims.nbDims then
    some ((List.range dims.nbDims.toNat).map (fun i => dims.d.getD i 0))
  else
    none

/-- From `OptimizationProfile::get_min_dimensions`. -/
def get_min_dimensions (p : NativeProfile) (input_name : String) : Option (List Int) :=
  get_dimensions p input_name 0

/-- From `OptimizationProfile::get_opt_dimensions`. -/
def get_opt_dimensions (p : NativeProfile) (input_name : String) : Option (List Int) :=
  get_dimensions p input_name 1

/-- From `OptimizationProfile::get_max_dimensions`. -/
def get_max_dimensions (p : NativeProfile) (input_name : String) : Option (List Int) :=
  get_dimensions p input_name 2

/-- From `OptimizationProfile::set_shape_values`: forwards the values and
their count to native `setShapeValues` and returns the native boolean. -/
def set_shape_values (p : NativeProfile) (input_name : String) (select : Int)
    (values : List Int) : Bool × NativeProfile :=
  nativeSetShapeValues p input_name select values

/-- From `OptimizationProfile::set_min_shape_values`. -/
def set_min_shape_values (p : NativeProfile) (input_name : String) (values : List Int) :
    Bool × NativeProfile :=
  set_shape_values p input_name 0 values

/-- From `OptimizationProfile::set_opt_shape_values`. -/
def set_opt_shape_values (p : NativeProfile) (input_name : String) (values : List Int) :
    Bool × NativeProfile :=
  set_shape_values p input_name 1 values

/-- From `OptimizationProfile::set_max_shape_values`. -/
def set_max_shape_values (p : NativeProfile) (input_name : String) (values : List Int) :
    Bool × NativeProfile :=
  set_shape_values p input_name 2 values

/-- From `OptimizationProfile::get_shape_values`: the wrapper first queries
`getNbShapeValues(input_name)` (no selector); a negative count yields
`Ok(None)`; otherwise it calls `getShapeValues(input_name, select)`, maps a
null pointer to the engine-reported last error via the `result!` macro, and
otherwise reads exactly `nb_shape_values` elements from the returned pointer
into a fresh vector. -/
def get_shape_values (p : NativeProfile) (input_name : String) (select : Int) :
    Except Error (Option (List Int)) :=
  let nb_shape_values := nativeGetNbShapeValues p input_name
  if nb_shape_values < 0 then
    Except.ok none
  else
    match nativeGetShapeValues p input_name select with
    | none => Except.error last_error
    | some shape_values =>
        Except.ok (some ((List.range nb_shape_values.toNat).map
          (fun i => shape_values.getD i 0)))

/-- From `OptimizationProfile::get_min_shape_values`. -/
def get_min_shape_values (p : NativeProfile) (input_name : String) :
    Except Error (Option (List Int)) :=
  get_shape_values p input_name 0

/-- From `OptimizationProfile::get_opt_shape_values`. -/
def get_opt_shape_values (p : NativeProfile) (input_name : String) :
    Except Error (Option (List Int)) :=
  get_shape_values p input_name 1

/-- From `OptimizationProfile::get_max_shape_values`. -/
def get_max_shape_values (p : NativeProfile) (input_name : String) :
    Except Error (Option (List Int)) :=
  get_shape_values p input_name 2

/-- From `OptimizationProfile::set_extra_memory_target`: forwards the value
to native `setExtraMemoryTarget` and returns the native boolean. -/
def set_extra_memory_target (p : NativeProfile) (target : ℚ) : Bool × NativeProfile :=
  nativeSetExtraMemoryTarget p target

/-- From `OptimizationProfile::get_extra_memory_target`: forwards to native
`getExtraMemoryTarget`. -/
def get_extra_memory_target (p : NativeProfile) : ℚ :=
  nativeGetExtraMemoryTarget p

end OptimizationProfile

/-! ## Operation traces over a native profile

Used to express "was never set" hypotheses: a profile reachable from a fresh
native profile by a sequence of wrapper mutations. -/

/-- One mutating wrapper operation on an optimization profile. -/
inductive ProfileOp where
  | setDims (name : String) (select : Int) (ds : List Int)
  | setShapeVals (name : String) (select : Int) (vs : List Int)
  | setExtraMemoryTarget (t : ℚ)

/-- Whether the operation sets dimensions for the given input name. -/
def ProfileOp.isSetDimsFor (name : String) : ProfileOp → Bool
  | .setDims n _ _ => n == name
  | _ => false

/-- Whether the operation sets shape values for the given input name. -/
def ProfileOp.isSetShapeValsFor (name : String) : ProfileOp → Bool
  | .setShapeVals n _ _ => n == name
  | _ => false

/-- Apply one wrapper mutation to the native profile state (the returned
boolean is discarded, as a caller ignoring the soft-failure flag would). -/
def applyProfileOp (p : NativeProfile) : ProfileOp → NativeProfile
  | .setDims name select ds => (OptimizationProfile.set_dimensions p name select ds).2
  | .setShapeVals name select vs => (OptimizationProfile.set_shape_values p name select vs).2
  | .setExtraMemoryTarget t => (OptimizationProfile.set_extra_memory_target p t).2

/-- The native profile state after running a sequence of wrapper mutations on
a fresh profile. -/
def runProfileOps (ops : List ProfileOp) : NativeProfile :=
  ops.foldl applyProfileOp emptyProfile

/-! ## Public `OptimizationProfile` facade (`src/optimization_profile.rs`)

The public wrapper holds an optional shared reference (`inner`) and an
optional mutable reference (`inner_mut`) to the synchronous profile; exactly
one of them is populated by the two constructors.  The references are
embedded as the referenced profile state itself; a method that in Rust
panics by unwrapping a `None` reference is embedded as returning `none`. -/

structure OptimizationProfileFacade where
  inner : Option NativeProfile
  inner_mut : Option NativeProfile

namespace OptimizationProfileFacade

/-- From `OptimizationProfile::from_inner`: shared reference only. -/
def from_inner (p : NativeProfile) : OptimizationProfileFacade :=
  { inner := some p, inner_mut := none }

/-- From `OptimizationProfile::from_inner_mut`: mutable reference only. -/
def from_inner_mut (p : NativeProfile) : OptimizationProfileFacade :=
  { inner := none, inner_mut := some p }

/-- From the private accessor `inner_mut(&mut self)`, which unwraps
`self.inner_mut`; `none` embeds the panic on a facade built without a
mutable reference. -/
def innerMutAccess (self : OptimizationProfileFacade) : Option NativeProfile :=
  self.inner_mut

/-- From the public accessor `inner(&self)`:
`self.inner_mut.as_ref().map(..).or(self.inner).unwrap()`; `none` embeds the
panic when both references are absent. -/
def innerAccess (self : OptimizationProfileFacade) : Option NativeProfile :=
  self.inner_mut.or self.inner

/-- From the facade `set_min_dimensions`: delegates through `inner_mut()`. -/
def set_min_dimensions (self : OptimizationProfileFacade) (input_name : String)
    (dims : List Int) : Option (Bool × NativeProfile) :=
  self.innerMutAccess.map (fun p => OptimizationProfile.set_min_dimensions p input_name dims)

/-- From the facade `set_opt_dimensions`: delegates through `inner_mut()`. -/
def set_opt_dimensions (self : OptimizationProfileFacade) (input_name : String)
    (dims : List Int) : Option (Bool × NativeProfile) :=
  self.innerMutAccess.map (fun p => OptimizationProfile.set_opt_dimensions p input_name dims)

/-- From the facade `set_max_dimensions`: delegates through `inner_mut()`. -/
def set_max_dimensions (self : OptimizationProfileFacade) (input_name : String)
    (dims : List Int) : Option (Bool × NativeProfile) :=
  self.innerMutAccess.map (fun p => OptimizationProfile.set_max_dimensions p input_name dims)

/-- From the facade `set_min_shape_values`: delegates through `inner_mut()`. -/
def set_min_shape_values (self : OptimizationProfileFacade) (input_name : String)
    (values : List Int) : Option (Bool × NativeProfile) :=
  self.innerMutAccess.map (fun p => OptimizationProfile.set_min_shape_values p input_name values)

/-- From the facade `set_opt_shape_values`: delegates through `inner_mut()`. -/
def set_opt_shape_values (self : OptimizationProfileFacade) (input_name : String)
    (values : List Int) : Option (Bool × NativeProfile) :=
  self.innerMutAccess.map (fun p => OptimizationProfile.set_opt_shape_values p input_name values)

/-- From the facade `set_max_shape_values`: delegates through `inner_mut()`. -/
def set_max_shape_values (self : OptimizationProfileFacade) (input_name : String)
    (values : List Int) : Option (Bool × NativeProfile) :=
  self.innerMutAccess.map (fun p => OptimizationProfile.set_max_shape_values p input_name values)

/-- From the facade `set_extra_memory_target`: delegates through
`inner_mut()`. -/
def set_extra_memory_target (self : OptimizationProfileFacade) (target : ℚ) :
    Option (Bool × NativeProfile) :=
  self.innerMutAccess.map (fun p => OptimizationProfile.set_extra_memory_target p target)

/-- From the facade `get_min_dimensions`: delegates through `inner()`. -/
def get_min_dimensions (self : OptimizationProfileFacade) (input_name : String) :
    Option (Option (List Int)) :=
  self.innerAccess.map (fun p => OptimizationProfile.get_min_dimensions p input_name)

end OptimizationProfileFacade

/-! ## `BuilderConfig` (`src/ffi/builder_config.rs`)

The attach operation is parametrized by the index the native
`addOptimizationProfile` call returns for this attach. -/

namespace BuilderConfig

/-- From `BuilderConfig::add_optimization_profile`: calls native
`addOptimizationProfile` obtaining `index`; returns `Ok(())` when
`index >= 0`, otherwise the engine-reported last error. -/
def add_optimization_profile (index : Int) : Except Error Unit :=
  if 0 ≤ index then Except.ok () else Except.error last_error

/-- From `BuilderConfig::with_optimization_profile`: delegates to
`add_optimization_profile` with the `?` operator and returns `Ok(self)` on
success (`self` carries no observable state here beyond success). -/
def with_optimization_profile (index : Int) : Except Error Unit :=
  (add_optimization_profile index).map (fun _ => ())

end BuilderConfig

/-! ## `Engine::io_tensor_type` (`src/ffi/sync/engine.rs`) -/

/-- Closed data-type enumeration of the wrapper (`DataType` in
`src/ffi/sync/engine.rs`). -/
inductive DataType where
  | Float
  | Half
  | Int8
  | Int32
  | Bool
  | Uint8
  | Fp8
  | Bf16
  | Int64
  | Int4
  | Fp4
deriving DecidableEq, Repr

namespace Engine

/-- From the `match data_type` in `Engine::io_tensor_type`: maps the native
data-type code to the wrapper enumeration; `none` embeds the `panic!` on any
unrecognized code (fatal, unrecoverable by design). -/
def io_tensor_type (data_type : Int) : Option DataType :=
  if data_type = 0 then some DataType.Float
  else if data_type = 1 then some DataType.Half
  else if data_type = 2 then some DataType.Int8
  else if data_type = 3 then some DataType.Int32
  else if data_type = 4 then some DataType.Bool
  else if data_type = 5 then some DataType.Uint8
  else if data_type = 6 then some DataType.Fp8
  else if data_type = 7 then some DataType.Bf16
  else if data_type = 8 then some DataType.Int64
  else if data_type = 9 then some DataType.Int4
  else if data_type = 10 then some DataType.Fp4
  else none

end Engine

/-! ## Drop traces of the handle-owning wrappers

Each `Drop` implementation is embedded as the sequence of externally visible
native calls it performs, in order: `Device::set_or_panic(device)` events and
`destroy(handle)` events. -/

/-- The kind of native handle a destroy call releases. -/
inductive HandleKind where
  | builder
  | builderConfig
  | runtime
  | engine
  | executionContext
deriving DecidableEq, Repr

/-- One externally visible native call performed during a drop. -/
inductive DropEvent where
  | setDevice (device : DeviceId)
  | destroy (kind : HandleKind)
deriving DecidableEq, Repr

/-- From `impl Drop for Builder` (`src/ffi/sync/builder.rs`):
`Device::set_or_panic(self.device)` then `destroy((IBuilder*) internal)`. -/
def Builder.dropTrace (device : DeviceId) : List DropEvent :=
  [DropEvent.setDevice device, DropEvent.destroy HandleKind.builder]

/-- From `impl Drop for BuilderConfig` (`src/ffi/builder_config.rs`):
`destroy((IBuilderConfig*) internal)` only; no device is made current (the
type stores no device). -/
def BuilderConfig.dropTrace : List DropEvent :=
  [DropEvent.destroy HandleKind.builderConfig]

/-- From `impl Drop for Runtime` (`src/ffi/sync/runtime.rs`):
`Device::set_or_panic(self.device)` then `destroy((IRuntime*) internal)`. -/
def Runtime.dropTrace (device : DeviceId) : List DropEvent :=
  [DropEvent.setDevice device, DropEvent.destroy HandleKind.runtime]

/-- From `impl Drop for Engine` (`src/ffi/sync/engine.rs`):
`Device::set_or_panic(self.runtime.device())` then
`destroy((ICudaEngine*) internal)`; afterwards the owned `runtime` field is
dropped, running `Runtime`'s own drop on the same device. -/
def Engine.dropTrace (device : DeviceId) : List DropEvent :=
  [DropEvent.setDevice device, DropEvent.destroy HandleKind.engine] ++
    Runtime.dropTrace device

/-- From `impl Drop for ExecutionContext` (`src/ffi/sync/engine.rs`):
`Device::set_or_panic(self.device)` then
`destroy((IExecutionContext*) internal)`. -/
def ExecutionContext.dropTrace (device : DeviceId) : List DropEvent :=
  [DropEvent.setDevice device, DropEvent.destroy HandleKind.executionContext]

/-- The property claimed for a drop: the trace begins by making a device
current, before any destroy call. -/
def dropSetsDeviceFirst (trace : List DropEvent) : Prop :=
  ∃ d rest, trace = DropEvent.setDevice d :: rest

/-- Number of destroy calls for a given handle kind in a trace. -/
def destroyCount (kind : HandleKind) (trace : List DropEvent) : Nat :=
  trace.countP (fun e => e == DropEvent.destroy kind)

/-! ## `ExecutionContext::set_tensor_address` (`src/ffi/sync/engine.rs`) -/

/-- The pair of arguments handed to the native
`IExecutionContext::setTensorAddress` call. -/
structure TensorAddressCall where
  tensor_name : String
  address : Nat
deriving DecidableEq, Repr

/-- From `ExecutionContext::set_tensor_address`: the wrapper marshals the
tensor name and the caller's device-buffer pointer, but the native
`setTensorAddress` call is made with the literal address `0`; the marshalled
`buffer_ptr` is not passed (in the source it appears only in a commented-out
argument position). -/
def ExecutionContext.set_tensor_address_native_args (tensor_name : String)
    (buffer_ptr : Nat) : TensorAddressCall :=
  { tensor_name := tensor_name, address := 0 }

/-- From the bind loop in `ExecutionContext::enqueue`: every supplied tensor
is bound through `set_tensor_address` before the enqueue; the addresses the
native layer receives are those produced by `set_tensor_address`. -/
def ExecutionContext.enqueue_native_binds (io_tensors : List (String × Nat)) :
    List TensorAddressCall :=
  io_tensors.map (fun nb => ExecutionContext.set_tensor_address_native_args nb.1 nb.2)

/-! ## Asynchronous facade (`src/builder.rs`, `src/runtime.rs`)

Every async operation constructs a closure over the synchronous call and
submits it via `async_cuda::runtime::Future`.  `Future` is an external
collaborator; modelled from the spec: the await resolves to exactly the value
the submitted closure returns. -/

/-- Modelled from the spec: `Future::new(f)` submits `f` to the single
background worker. -/
def Future.new (f : Unit → α) : Unit → α := f

/-- Modelled from the spec: awaiting the future resolves to the closure's
return value once the worker has run it. -/
def Future.await (fut : Unit → α) : α := fut ()

/-- A host buffer produced by build or serialize (opaque byte blob). -/
structure HostBuffer where
  bytes : List Nat
deriving DecidableEq, Repr

/-- Handle address of a native engine object. -/
abbrev EngineHandle := Nat

/-- State of the synchronous `Runtime` wrapper (`src/ffi/sync/runtime.rs`):
the native pointer is irrelevant to the claims, the owning device is kept. -/
structure RuntimeState where
  device : DeviceId
deriving DecidableEq, Repr

/-- The synchronous `Engine` wrapper (`src/ffi/sync/engine.rs`): native
pointer plus the owned `Runtime` (which carries the device affinity). -/
structure SyncEngine where
  internal : EngineHandle
  runtime : RuntimeState
deriving DecidableEq, Repr

/-- Modelled from the spec: the public `Engine` facade (`src/engine.rs` is
not among the provided sources); per the facade pattern it is a thin wrapper
holding the synchronous engine, built with `Engine::from_inner`. -/
structure EngineFacade where
  inner : SyncEngine
deriving DecidableEq, Repr

/-- Modelled from the spec: `Engine::from_inner` wraps the synchronous
engine without altering it. -/
def EngineFacade.from_inner (inner : SyncEngine) : EngineFacade :=
  { inner := inner }

namespace SyncBuilder

/-- From the synchronous `Builder::build_serialized_network`
(`src/ffi/sync/builder.rs`): calls native `buildSerializedNetwork`; the
`result!` macro maps a null plan pointer to the engine-reported last error
and otherwise wraps the plan as a `HostBuffer`.  The native outcome is the
`native_plan` parameter. -/
def build_serialized_network (native_plan : Option HostBuffer) :
    Except Error HostBuffer :=
  match native_plan with
  | some plan => Except.ok plan
  | none => Except.error last_error

/-- From the synchronous `Builder::config` (`src/ffi/sync/builder.rs`):
calls native `createBuilderConfig` and wraps the returned pointer
unconditionally. -/
def config (native_config_ptr : Nat) : Nat :=
  native_config_ptr

end SyncBuilder

namespace SyncRuntime

/-- From the synchronous `Runtime::deserialize_engine_raw`
(`src/ffi/sync/runtime.rs`): first `Device::set(self.device)?` (its outcome
is the `device_set` parameter, propagated with `?`), then the native
`deserializeCudaEngine` call (outcome `native_engine`); `result!` maps a
null engine pointer to the engine-reported last error and otherwise wraps
the pointer together with the consumed runtime. -/
def deserialize_engine_raw (rt : RuntimeState) (device_set : Except Error Unit)
    (native_engine : Option EngineHandle) : Except Error SyncEngine :=
  match device_set with
  | Except.error e => Except.error e
  | Except.ok _ =>
      match native_engine with
      | some internal => Except.ok { internal := internal, runtime := rt }
      | none => Except.error last_error

/-- From the synchronous `Runtime::deserialize_engine`: delegates to
`deserialize_engine_raw` on the slice's pointer range. -/
def deserialize_engine (rt : RuntimeState) (device_set : Except Error Unit)
    (native_engine : Option EngineHandle) : Except Error SyncEngine :=
  deserialize_engine_raw rt device_set native_engine

/-- From the synchronous `Runtime::deserialize_engine_from_plan`: delegates
to `deserialize_engine_raw` on the plan buffer's pointer range. -/
def deserialize_engine_from_plan (rt : RuntimeState) (device_set : Except Error Unit)
    (native_engine : Option EngineHandle) : Except Error SyncEngine :=
  deserialize_engine_raw rt device_set native_engine

end SyncRuntime

namespace AsyncBuilder

/-- From the async `Builder::build_serialized_network` (`src/builder.rs`):
`Future::new(move || self.inner.build_serialized_network(..)).await`. -/
def build_serialized_network (native_plan : Option HostBuffer) :
    Except Error HostBuffer :=
  Future.await (Future.new (fun _ => SyncBuilder.build_serialized_network native_plan))

/-- From the async `Builder::config` (`src/builder.rs`):
`Future::new(|| self.inner.config()).await`. -/
def config (native_config_ptr : Nat) : Nat :=
  Future.await (Future.new (fun _ => SyncBuilder.config native_config_ptr))

end AsyncBuilder

namespace AsyncRuntime

/-- From the async `Runtime::deserialize_engine` (`src/runtime.rs`):
`Future::new(move || self.inner.deserialize_engine(buffer).map(Engine::from_inner)).await`. -/
def deserialize_engine (rt : RuntimeState) (device_set : Except Error Unit)
    (native_engine : Option EngineHandle) : Except Error EngineFacade :=
  Future.await (Future.new (fun _ =>
    (SyncRuntime.deserialize_engine rt device_set native_engine).map
      EngineFacade.from_inner))

/-- From the async `Runtime::deserialize_engine_from_plan` (`src/runtime.rs`):
`Future::new(move || self.inner.deserialize_engine_from_plan(plan).map(Engine::from_inner)).await`. -/
def deserialize_engine_from_plan (rt : RuntimeState) (device_set : Except Error Unit)
    (native_engine : Option EngineHandle) : Except Error EngineFacade :=
  Future.await (Future.new (fun _ =>
    (SyncRuntime.deserialize_engine_from_plan rt device_set native_engine).map
      EngineFacade.from_inner))

end AsyncRuntime

/-! ## Helper lemmas -/

/-- Copying the first `l.length` entries out of `l` element by element
reproduces `l`. -/
theorem list_range_map_getD (l : List Int) :
    List.map (fun i => l.getD i 0) (List.range l.length) = l := by
  apply List.ext_getElem
  · simp
  · intro n h1 h2
    rw [List.getElem_map, List.getElem_range]
    exact List.getD_eq_getElem l 0 h2

/-! ## Claim theorems -/

/-- C3: for every native attach index, `add_optimization_profile` (and the
`with_optimization_profile` variant) returns `Ok` exactly when the native
`addOptimizationProfile` call returned a non-negative index, and a negative
index always yields the engine-reported error, never a silent success. -/
theorem add_optimization_profile_ok_iff_nonneg (index : Int) :
    ((BuilderConfig.add_optimization_profile index = Except.ok ()) ↔ 0 ≤ index) ∧
    (index < 0 → BuilderConfig.add_optimization_profile index = Except.error last_error) ∧
    ((BuilderConfig.with_optimization_profile index = Except.ok ()) ↔ 0 ≤ index) ∧
    (index < 0 → BuilderConfig.with_optimization_profile index = Except.error last_error) := by
  simp only [BuilderConfig.with_optimization_profile, BuilderConfig.add_optimization_profile]
  split_ifs with h
  · simp [h, Except.map]
  · simp [h, Except.map]

/-- C3 witness: at the concrete indices `0` and `-1` the attach succeeds and
fails with the engine-reported error respectively. -/
theorem add_optimization_profile_ok_iff_nonneg_witness :
    BuilderConfig.add_optimization_profile 0 = Except.ok () ∧
    BuilderConfig.add_optimization_profile (-1) = Except.error last_error ∧
    BuilderConfig.with_optimization_profile (-1) = Except.error last_error :=
  ⟨(add_optimization_profile_ok_iff_nonneg 0).1.mpr (by norm_num),
   (add_optimization_profile_ok_iff_nonneg (-1)).2.1 (by norm_num),
   (add_optimization_profile_ok_iff_nonneg (-1)).2.2.2 (by norm_num)⟩

/-- C5: a `set_extra_memory_target` call with a value below `0` or above `1`
returns `false` and leaves the value reported by `get_extra_memory_target`
unchanged. -/
theorem set_extra_memory_target_rejects_out_of_range (p : NativeProfile) (f : ℚ)
    (h : f < 0 ∨ 1 < f) :
    (OptimizationProfile.set_extra_memory_target p f).1 = false ∧
    OptimizationProfile.get_extra_memory_target
        (OptimizationProfile.set_extra_memory_target p f).2 =
      OptimizationProfile.get_extra_memory_target p := by
  have hnot : ¬ (0 ≤ f ∧ f ≤ 1) := by
    rintro ⟨h0, h1⟩
    rcases h with h | h <;> linarith
  simp [OptimizationProfile.set_extra_memory_target, nativeSetExtraMemoryTarget, hnot,
    OptimizationProfile.get_extra_memory_target, nativeGetExtraMemoryTarget]

/-- C5 witness: the out-of-range value `2` on a fresh profile is rejected and
the reported target is unchanged. -/
theorem set_extra_memory_target_rejects_out_of_range_witness :
    ((2 : ℚ) < 0 ∨ 1 < (2 : ℚ)) ∧
    ((OptimizationProfile.set_extra_memory_target emptyProfile 2).1 = false ∧
      OptimizationProfile.get_extra_memory_target
          (OptimizationProfile.set_extra_memory_target emptyProfile 2).2 =
        OptimizationProfile.get_extra_memory_target emptyProfile) :=
  ⟨Or.inr (by norm_num),
   set_extra_memory_target_rejects_out_of_range emptyProfile 2 (Or.inr (by norm_num))⟩

/-- C6: whenever a dimension setter (respectively shape-value setter) returns
`true`, the getter with the same selector and input name, run on the state
the setter produced, returns exactly the values that were set. -/
theorem set_then_get_roundtrip (p : NativeProfile) (input_name : String)
    (select : Int) (ds vs : List Int) :
    ((OptimizationProfile.set_dimensions p input_name select ds).1 = true →
      OptimizationProfile.get_dimensions
          (OptimizationProfile.set_dimensions p input_name select ds).2 input_name select =
        some ds) ∧
    ((OptimizationProfile.set_shape_values p input_name select vs).1 = true →
      OptimizationProfile.get_shape_values
          (OptimizationProfile.set_shape_values p input_name select vs).2 input_name select =
        Except.ok (some vs)) := by
  constructor
  · intro hset
    have hlen : ds.length ≤ MAX_DIMS := by
      by_contra hlen
      simp [OptimizationProfile.set_dimensions, nativeSetDimensions, hlen] at hset
    simp only [OptimizationProfile.set_dimensions, nativeSetDimensions, if_pos hlen]
    simp only [OptimizationProfile.get_dimensions, nativeGetDimensions]
    simp only [and_self, if_true, eq_self_iff_true, Int.natCast_nonneg, if_pos,
      Int.toNat_natCast]
    simpa using list_range_map_getD ds
  · intro hset
    have hnb : p.nbShapeValues input_name = -1 ∨
        p.nbShapeValues input_name = (vs.length : Int) := by
      by_contra hnb
      rw [OptimizationProfile.set_shape_values, nativeSetShapeValues, if_neg hnb] at hset
      simp at hset
    simp only [OptimizationProfile.set_shape_values, nativeSetShapeValues, if_pos hnb]
    simp only [OptimizationProfile.get_shape_values, nativeGetNbShapeValues,
      nativeGetShapeValues]
    simp only [and_self, if_true, eq_self_iff_true, Int.toNat_natCast]
    have hge : ¬ ((vs.length : Int) < 0) := by
      simp
    simp only [if_neg hge, Int.toNat_natCast]
    simpa using list_range_map_getD vs

/-- C6 witness: on a fresh profile, setting the dimensions `[1, 3, 224, 224]`
and the shape values `[5, 7]` for input `x` with the `Min` selector succeeds
and the matching getters return exactly those values. -/
theorem set_then_get_roundtrip_witness :
    ((OptimizationProfile.set_dimensions emptyProfile "x" 0 [1, 3, 224, 224]).1 = true ∧
      OptimizationProfile.get_dimensions
          (OptimizationProfile.set_dimensions emptyProfile "x" 0 [1, 3, 224, 224]).2 "x" 0 =
        some [1, 3, 224, 224]) ∧
    ((OptimizationProfile.set_shape_values emptyProfile "x" 0 [5, 7]).1 = true ∧
      OptimizationProfile.get_shape_values
          (OptimizationProfile.set_shape_values emptyProfile "x" 0 [5, 7]).2 "x" 0 =
        Except.ok (some [5, 7])) :=
  ⟨⟨by decide,
    (set_then_get_roundtrip emptyProfile "x" 0 [1, 3, 224, 224] [5, 7]).1 (by decide)⟩,
   ⟨by decide,
    (set_then_get_roundtrip emptyProfile "x" 0 [1, 3, 224, 224] [5, 7]).2 (by decide)⟩⟩

set_option maxHeartbeats 1000000 in
/-- The wrapper match accepts exactly the native codes 0 through 10. -/
theorem io_tensor_type_isSome_iff (code : Int) :
    (Engine.io_tensor_type code).isSome ↔ 0 ≤ code ∧ code ≤ 10 := by
  unfold Engine.io_tensor_type
  split_ifs with h0 h1 h2 h3 h4 h5 h6 h7 h8 h9 h10 <;> simp <;> omega

/-- C7: `io_tensor_type` returns a member of the closed `DataType`
enumeration exactly for the native codes `0` through `10`, mapped in order
Float, Half, Int8, Int32, Bool, Uint8, Fp8, Bf16, Int64, Int4, Fp4, and
panics (embedded as `none`) on every other code. -/
theorem io_tensor_type_closed_enumeration (code : Int) :
    ((Engine.io_tensor_type code).isSome ↔ 0 ≤ code ∧ code ≤ 10) ∧
    Engine.io_tensor_type 0 = some DataType.Float ∧
    Engine.io_tensor_type 1 = some DataType.Half ∧
    Engine.io_tensor_type 2 = some DataType.Int8 ∧
    Engine.io_tensor_type 3 = some DataType.Int32 ∧
    Engine.io_tensor_type 4 = some DataType.Bool ∧
    Engine.io_tensor_type 5 = some DataType.Uint8 ∧
    Engine.io_tensor_type 6 = some DataType.Fp8 ∧
    Engine.io_tensor_type 7 = some DataType.Bf16 ∧
    Engine.io_tensor_type 8 = some DataType.Int64 ∧
    Engine.io_tensor_type 9 = some DataType.Int4 ∧
    Engine.io_tensor_type 10 = some DataType.Fp4 :=
  ⟨io_tensor_type_isSome_iff code, rfl, rfl, rfl, rfl, rfl, rfl, rfl, rfl, rfl,
   rfl, rfl⟩

/-- C7 witness: at the concrete codes `3` and `11` the mapping returns
`Int32` and falls outside the accepted range (the panic case) respectively. -/
theorem io_tensor_type_closed_enumeration_witness :
    Engine.io_tensor_type 3 = some DataType.Int32 ∧
    ((Engine.io_tensor_type 11).isSome ↔ 0 ≤ (11 : Int) ∧ (11 : Int) ≤ 10) ∧
    Engine.io_tensor_type 11 = none :=
  ⟨(io_tensor_type_closed_enumeration 3).2.2.2.2.1,
   (io_tensor_type_closed_enumeration 11).1,
   rfl⟩

/-- C1 (the code evaluated at the failing input): binding tensor `x` to a
device buffer at address 3735928559 hands the native `setTensorAddress` call
the address `0`, not the caller's buffer address; the bind loop of `enqueue`
does the same for every supplied tensor. -/
theorem set_tensor_address_passes_null :
    (ExecutionContext.set_tensor_address_native_args "x" 3735928559).address = 0 ∧
    (ExecutionContext.set_tensor_address_native_args "x" 3735928559).address ≠ 3735928559 ∧
    ExecutionContext.enqueue_native_binds [("x", 3735928559)] =
      [{ tensor_name := "x", address := 0 }] :=
  ⟨rfl, by decide, rfl⟩

/-- C2 counterexample: the claim fails for `BuilderConfig`, whose drop
performs no device switch before the native destroy call. -/
theorem builder_config_drop_sets_no_device :
    ¬ dropSetsDeviceFirst BuilderConfig.dropTrace := by
  rintro ⟨d, rest, h⟩
  simp [BuilderConfig.dropTrace] at h

/-- C2 amended: dropping a Builder, Runtime, Engine or ExecutionContext
first makes the handle's owning device current and then invokes the native
destroy call exactly once, regardless of which device was current before;
dropping a BuilderConfig invokes its native destroy exactly once but
performs no device switch. -/
theorem drop_device_affinity (d : DeviceId) :
    dropSetsDeviceFirst (Builder.dropTrace d) ∧
    destroyCount HandleKind.builder (Builder.dropTrace d) = 1 ∧
    dropSetsDeviceFirst (Runtime.dropTrace d) ∧
    destroyCount HandleKind.runtime (Runtime.dropTrace d) = 1 ∧
    dropSetsDeviceFirst (Engine.dropTrace d) ∧
    destroyCount HandleKind.engine (Engine.dropTrace d) = 1 ∧
    dropSetsDeviceFirst (ExecutionContext.dropTrace d) ∧
    destroyCount HandleKind.executionContext (ExecutionContext.dropTrace d) = 1 ∧
    destroyCount HandleKind.builderConfig BuilderConfig.dropTrace = 1 ∧
    ¬ dropSetsDeviceFirst BuilderConfig.dropTrace := by
  refine ⟨⟨d, _, rfl⟩, rfl, ⟨d, _, rfl⟩, rfl, ⟨d, _, rfl⟩, rfl, ⟨d, _, rfl⟩, rfl,
    rfl, ?_⟩
  rintro ⟨e, rest, h⟩
  simp [BuilderConfig.dropTrace] at h

/-- C2 witness: the amended statement at the concrete device `0`. -/
theorem drop_device_affinity_witness :
    dropSetsDeviceFirst (Builder.dropTrace 0) ∧
    destroyCount HandleKind.builder (Builder.dropTrace 0) = 1 ∧
    dropSetsDeviceFirst (Runtime.dropTrace 0) ∧
    destroyCount HandleKind.runtime (Runtime.dropTrace 0) = 1 ∧
    dropSetsDeviceFirst (Engine.dropTrace 0) ∧
    destroyCount HandleKind.engine (Engine.dropTrace 0) = 1 ∧
    dropSetsDeviceFirst (ExecutionContext.dropTrace 0) ∧
    destroyCount HandleKind.executionContext (ExecutionContext.dropTrace 0) = 1 ∧
    destroyCount HandleKind.builderConfig BuilderConfig.dropTrace = 1 ∧
    ¬ dropSetsDeviceFirst BuilderConfig.dropTrace :=
  drop_device_affinity 0

/-- A dimension bound for `name` stays unset across any sequence of
mutations that never sets dimensions for `name`. -/
theorem foldl_dims_unset (name : String) (select : Int) :
    ∀ (ops : List ProfileOp) (p : NativeProfile),
      p.dims name select = none →
      (∀ op ∈ ops, op.isSetDimsFor name = false) →
      (ops.foldl applyProfileOp p).dims name select = none := by
  intro ops
  induction ops with
  | nil =>
      intro p hp _
      simpa using hp
  | cons op rest ih =>
      intro p hp hops
      rw [List.foldl_cons]
      refine ih _ ?_ (fun o ho => hops o (List.mem_cons_of_mem _ ho))
      cases op with
      | setDims n s ds =>
          have hne : (n == name) = false := hops _ (List.mem_cons_self _ _)
          simp only [applyProfileOp, OptimizationProfile.set_dimensions,
            nativeSetDimensions]
          split_ifs with hlen
          · have hcond : ¬ (name = n ∧ select = s) := by
              rintro ⟨h1, _⟩
              rw [h1] at hne
              simp at hne
            simp [hcond, hp]
          · exact hp
      | setShapeVals n s vs =>
          simp only [applyProfileOp, OptimizationProfile.set_shape_values,
            nativeSetShapeValues]
          split_ifs <;> simpa using hp
      | setExtraMemoryTarget t =>
          simp only [applyProfileOp, OptimizationProfile.set_extra_memory_target,
            nativeSetExtraMemoryTarget]
          split_ifs <;> simpa using hp

/-- The shape-value count for `name` stays at `-1` across any sequence of
mutations that never sets shape values for `name`. -/
theorem foldl_nbShapeValues_unset (name : String) :
    ∀ (ops : List ProfileOp) (p : NativeProfile),
      p.nbShapeValues name = -1 →
      (∀ op ∈ ops, op.isSetShapeValsFor name = false) →
      (ops.foldl applyProfileOp p).nbShapeValues name = -1 := by
  intro ops
  induction ops with
  | nil =>
      intro p hp _
      simpa using hp
  | cons op rest ih =>
      intro p hp hops
      rw [List.foldl_cons]
      refine ih _ ?_ (fun o ho => hops o (List.mem_cons_of_mem _ ho))
      cases op with
      | setDims n s ds =>
          simp only [applyProfileOp, OptimizationProfile.set_dimensions,
            nativeSetDimensions]
          split_ifs <;> simpa using hp
      | setShapeVals n s vs =>
          have hne : (n == name) = false := hops _ (List.mem_cons_self _ _)
          simp only [applyProfileOp, OptimizationProfile.set_shape_values,
            nativeSetShapeValues]
          split_ifs with hcount
          · have hcond : ¬ (name = n) := by
              intro h1
              rw [h1] at hne
              simp at hne
            simp [hcond, hp]
          · exact hp
      | setExtraMemoryTarget t =>
          simp only [applyProfileOp, OptimizationProfile.set_extra_memory_target,
            nativeSetExtraMemoryTarget]
          split_ifs <;> simpa using hp

/-- C4: on a profile reached by any sequence of mutations that never set
dimensions (respectively shape values) for an input name, the dimension
getters return `None` (the native count is negative) and the shape-value
getters return `Ok(None)`; moreover the absent case is distinct from a
present zero-length vector: a getter returns an empty vector exactly when
the native count is zero. -/
theorem unset_getters_distinguish_absent (ops : List ProfileOp) (name : String)
    (select : Int) :
    ((∀ op ∈ ops, op.isSetDimsFor name = false) →
      (nativeGetDimensions (runProfileOps ops) name select).nbDims < 0 ∧
      OptimizationProfile.get_dimensions (runProfileOps ops) name select = none) ∧
    ((∀ op ∈ ops, op.isSetShapeValsFor name = false) →
      nativeGetNbShapeValues (runProfileOps ops) name < 0 ∧
      OptimizationProfile.get_shape_values (runProfileOps ops) name select =
        Except.ok none) ∧
    (∀ p : NativeProfile,
      OptimizationProfile.get_dimensions p name select = some [] ↔
        (nativeGetDimensions p name select).nbDims = 0) ∧
    (∀ (p : NativeProfile) (vs : List Int),
      OptimizationProfile.get_shape_values p name select = Except.ok (some vs) →
        (vs = [] ↔ nativeGetNbShapeValues p name = 0)) := by
  refine ⟨?_, ?_, ?_, ?_⟩
  · intro hops
    have hdims : (runProfileOps ops).dims name select = none :=
      foldl_dims_unset name select ops emptyProfile rfl hops
    constructor
    · simp [nativeGetDimensions, hdims]
    · simp [OptimizationProfile.get_dimensions, nativeGetDimensions, hdims]
  · intro hops
    have hnb : (runProfileOps ops).nbShapeValues name = -1 :=
      foldl_nbShapeValues_unset name ops emptyProfile rfl hops
    constructor
    · simp [nativeGetNbShapeValues, hnb]
    · simp [OptimizationProfile.get_shape_values, nativeGetNbShapeValues, hnb]
  · intro p
    simp only [OptimizationProfile.get_dimensions]
    split_ifs with hge
    · simp only [Option.some_inj]
      constructor
      · intro hmap
        have hr : List.range (nativeGetDimensions p name select).nbDims.toNat = [] :=
          List.map_eq_nil_iff.mp hmap
        rw [List.range_eq_nil] at hr
        omega
      · intro h0
        simp [h0]
    · simp
      omega
  · intro p vs hvs
    simp only [OptimizationProfile.get_shape_values] at hvs
    split_ifs at hvs with hlt
    · simp at hvs
    · cases hp : nativeGetShapeValues p name select with
      | none => rw [hp] at hvs; simp at hvs
      | some l =>
          rw [hp] at hvs
          simp only [Except.ok.injEq, Option.some_inj] at hvs
          subst hvs
          simp only [List.map_eq_nil_iff, List.range_eq_nil]
          omega

/-- C4 witness: after mutations touching only input `y`, the getters for
input `x` report absence, and on a fresh profile the empty-vector case
coincides with a zero native count. -/
theorem unset_getters_distinguish_absent_witness :
    (nativeGetDimensions
        (runProfileOps [ProfileOp.setDims "y" 0 [1, 2], ProfileOp.setShapeVals "y" 1 [7]])
        "x" 0).nbDims < 0 ∧
    OptimizationProfile.get_dimensions
        (runProfileOps [ProfileOp.setDims "y" 0 [1, 2], ProfileOp.setShapeVals "y" 1 [7]])
        "x" 0 = none ∧
    OptimizationProfile.get_shape_values
        (runProfileOps [ProfileOp.setDims "y" 0 [1, 2], ProfileOp.setShapeVals "y" 1 [7]])
        "x" 0 = Except.ok none ∧
    (OptimizationProfile.get_dimensions emptyProfile "x" 0 = some [] ↔
      (nativeGetDimensions emptyProfile "x" 0).nbDims = 0) :=
  ⟨((unset_getters_distinguish_absent
      [ProfileOp.setDims "y" 0 [1, 2], ProfileOp.setShapeVals "y" 1 [7]] "x" 0).1
      (by decide)).1,
   ((unset_getters_distinguish_absent
      [ProfileOp.setDims "y" 0 [1, 2], ProfileOp.setShapeVals "y" 1 [7]] "x" 0).1
      (by decide)).2,
   ((unset_getters_distinguish_absent
      [ProfileOp.setDims "y" 0 [1, 2], ProfileOp.setShapeVals "y" 1 [7]] "x" 0).2.1
      (by decide)).2,
   (unset_getters_distinguish_absent
      [ProfileOp.setDims "y" 0 [1, 2], ProfileOp.setShapeVals "y" 1 [7]] "x" 0).2.2.1
      emptyProfile⟩

/-- C9: the three shape-value getters agree on presence, and every selector
that succeeds yields a vector of the same shared length, because the element
count is queried by input name only. -/
theorem shape_value_getters_agree (p : NativeProfile) (name : String) :
    (OptimizationProfile.get_min_shape_values p name = Except.ok none ∧
     OptimizationProfile.get_opt_shape_values p name = Except.ok none ∧
     OptimizationProfile.get_max_shape_values p name = Except.ok none) ∨
    (∃ n : ℕ, ∀ (select : Int) (vs : List Int),
      OptimizationProfile.get_shape_values p name select = Except.ok (some vs) →
      vs.length = n) := by
  by_cases hlt : nativeGetNbShapeValues p name < 0
  · left
    refine ⟨?_, ?_, ?_⟩ <;>
      simp [OptimizationProfile.get_min_shape_values,
        OptimizationProfile.get_opt_shape_values,
        OptimizationProfile.get_max_shape_values,
        OptimizationProfile.get_shape_values, hlt]
  · right
    refine ⟨(nativeGetNbShapeValues p name).toNat, ?_⟩
    intro select vs hvs
    simp only [OptimizationProfile.get_shape_values, if_neg hlt] at hvs
    cases hp : nativeGetShapeValues p name select with
    | none => rw [hp] at hvs; simp at hvs
    | some l =>
        rw [hp] at hvs
        simp only [Except.ok.injEq, Option.some_inj] at hvs
        subst hvs
        simp

/-- C9 witness: the agreement at a fresh profile and input `x`. -/
theorem shape_value_getters_agree_witness :
    (OptimizationProfile.get_min_shape_values emptyProfile "x" = Except.ok none ∧
     OptimizationProfile.get_opt_shape_values emptyProfile "x" = Except.ok none ∧
     OptimizationProfile.get_max_shape_values emptyProfile "x" = Except.ok none) ∨
    (∃ n : ℕ, ∀ (select : Int) (vs : List Int),
      OptimizationProfile.get_shape_values emptyProfile "x" select = Except.ok (some vs) →
      vs.length = n) :=
  shape_value_getters_agree emptyProfile "x"

/-- C10: every mutating operation on a facade built with `from_inner` panics
(unwraps the absent mutable reference, embedded as `none`), while the same
operations on a facade built with `from_inner_mut` reach the synchronous
profile, and read access through `from_inner` still works. -/
theorem facade_mutators_require_mut (p : NativeProfile) (input_name : String)
    (dims values : List Int) (target : ℚ) :
    ((OptimizationProfileFacade.from_inner p).set_min_dimensions input_name dims = none ∧
     (OptimizationProfileFacade.from_inner p).set_opt_dimensions input_name dims = none ∧
     (OptimizationProfileFacade.from_inner p).set_max_dimensions input_name dims = none ∧
     (OptimizationProfileFacade.from_inner p).set_min_shape_values input_name values = none ∧
     (OptimizationProfileFacade.from_inner p).set_opt_shape_values input_name values = none ∧
     (OptimizationProfileFacade.from_inner p).set_max_shape_values input_name values = none ∧
     (OptimizationProfileFacade.from_inner p).set_extra_memory_target target = none) ∧
    ((OptimizationProfileFacade.from_inner_mut p).set_min_dimensions input_name dims =
        some (OptimizationProfile.set_min_dimensions p input_name dims) ∧
     (OptimizationProfileFacade.from_inner_mut p).set_min_shape_values input_name values =
        some (OptimizationProfile.set_min_shape_values p input_name values) ∧
     (OptimizationProfileFacade.from_inner_mut p).set_extra_memory_target target =
        some (OptimizationProfile.set_extra_memory_target p target)) ∧
    (OptimizationProfileFacade.from_inner p).get_min_dimensions input_name =
      some (OptimizationProfile.get_min_dimensions p input_name) :=
  ⟨⟨rfl, rfl, rfl, rfl, rfl, rfl, rfl⟩, ⟨rfl, rfl, rfl⟩, rfl⟩

/-- C8: each asynchronous facade operation resolves to exactly the value the
corresponding synchronous operation returns on the same inputs and state,
with the same success-or-error variant (the deserialize results are wrapped
by the value-preserving `Engine::from_inner`). -/
theorem async_facade_equals_sync (native_plan : Option HostBuffer)
    (native_config_ptr : Nat) (rt : RuntimeState) (device_set : Except Error Unit)
    (native_engine : Option EngineHandle) :
    AsyncBuilder.build_serialized_network native_plan =
      SyncBuilder.build_serialized_network native_plan ∧
    AsyncBuilder.config native_config_ptr = SyncBuilder.config native_config_ptr ∧
    AsyncRuntime.deserialize_engine rt device_set native_engine =
      (SyncRuntime.deserialize_engine rt device_set native_engine).map
        EngineFacade.from_inner ∧
    AsyncRuntime.deserialize_engine_from_plan rt device_set native_engine =
      (SyncRuntime.deserialize_engine_from_plan rt device_set native_engine).map
        EngineFacade.from_inner ∧
    (∀ e : SyncEngine,
      AsyncRuntime.deserialize_engine rt device_set native_engine =
          Except.ok (EngineFacade.from_inner e) ↔
        SyncRuntime.deserialize_engine rt device_set native_engine = Except.ok e) ∧
    (∀ err : Error,
      AsyncRuntime.deserialize_engine rt device_set native_engine = Except.error err ↔
        SyncRuntime.deserialize_engine rt device_set native_engine =
          Except.error err) := by
  refine ⟨rfl, rfl, rfl, rfl, ?_, ?_⟩
  · intro e
    cases device_set with
    | error err =>
        simp [AsyncRuntime.deserialize_engine, SyncRuntime.deserialize_engine,
          SyncRuntime.deserialize_engine_raw, Future.await, Future.new, Except.map]
    | ok u =>
        cases native_engine with
        | none =>
            simp [AsyncRuntime.deserialize_engine, SyncRuntime.deserialize_engine,
              SyncRuntime.deserialize_engine_raw, Future.await, Future.new, Except.map]
        | some h =>
            simp [AsyncRuntime.deserialize_engine, SyncRuntime.deserialize_engine,
              SyncRuntime.deserialize_engine_raw, Future.await, Future.new, Except.map,
              EngineFacade.from_inner]
  · intro err
    cases device_set with
    | error e =>
        simp [AsyncRuntime.deserialize_engine, SyncRuntime.deserialize_engine,
          SyncRuntime.deserialize_engine_raw, Future.await, Future.new, Except.map]
    | ok u =>
        cases native_engine with
        | none =>
            simp [AsyncRuntime.deserialize_engine, SyncRuntime.deserialize_engine,
              SyncRuntime.deserialize_engine_raw, Future.await, Future.new, Except.map]
        | some h =>
            simp [AsyncRuntime.deserialize_engine, SyncRuntime.deserialize_engine,
              SyncRuntime.deserialize_engine_raw, Future.await, Future.new, Except.map]

/-- C8 witness: the equivalence at a concrete runtime on device `0`, a
successful device switch and a non-null native engine at address `42`. -/
theorem async_facade_equals_sync_witness :
    AsyncRuntime.deserialize_engine { device := 0 } (Except.ok ()) (some 42) =
      (SyncRuntime.deserialize_engine { device := 0 } (Except.ok ()) (some 42)).map
        EngineFacade.from_inner ∧
    (AsyncRuntime.deserialize_engine { device := 0 } (Except.ok ()) (some 42) =
        Except.ok (EngineFacade.from_inner { internal := 42, runtime := { device := 0 } }) ↔
      SyncRuntime.deserialize_engine { device := 0 } (Except.ok ()) (some 42) =
        Except.ok { internal := 42, runtime := { device := 0 } }) :=
  ⟨(async_facade_equals_sync none 0 { device := 0 } (Except.ok ()) (some 42)).2.2.1,
   (async_facade_equals_sync none 0 { device := 0 } (Except.ok ()) (some 42)).2.2.2.2.1
     { internal := 42, runtime := { device := 0 } }⟩

end AsyncTensorrt
